import Mathlib

/-!
# Verification of the MCP `WorkerTransport` HTTP bridge

Shallow embedding of the `WorkerTransport` class and the `createMcpHandler`
factory of this repository.  The transport turns HTTP requests
(GET/POST/DELETE/OPTIONS) into a JSON-RPC channel: it validates content
negotiation, session identity and protocol version, parses single messages or
batches, opens SSE or JSON-collector streams for request-carrying batches,
records responses in a request-to-stream ledger, and resolves or tears the
streams down when every pending response has arrived.

JavaScript `Map`s are embedded as insertion-ordered association lists
(`Map.set` updates in place, new keys are appended at the end; iteration is in
insertion order).  Header lookups that the source tests with JS truthiness
(`if (!header)`) treat the empty string like a missing header; the embedding
mirrors this with `jsStr`.  Asynchronous effects (SSE writes, resolving the
deferred JSON response, stream cleanup) are made explicit as a `SendEffect`
list returned by the state-transforming functions.
-/

namespace McpWorker

/-- JSON-RPC request ids are strings or numbers. -/
inductive RequestId
  | str (s : String)
  | num (n : Int)
deriving DecidableEq, Repr

/-- `String(requestId)` as used when the transport builds error text. -/
def ridString : RequestId → String
  | RequestId.str s => s
  | RequestId.num n => toString n

/-- The `params` payload of a request, restricted to the field the transport
reads: `params.protocolVersion`. -/
structure InitParams where
  protocolVersion : Option String
deriving DecidableEq, Repr

/-- A schema-valid JSON-RPC message: request (has id and method), notification
(method, no id), response (id and result) or error (id and error object). -/
inductive JSONRPCMessage
  | request (id : RequestId) (method : String) (params : Option InitParams)
  | notification (method : String)
  | response (id : RequestId) (result : String)
  | error (id : RequestId) (code : Int) (message : String)
deriving DecidableEq, Repr

/-- `isJSONRPCRequest` from the SDK: a message with both `id` and `method`. -/
def isJSONRPCRequest : JSONRPCMessage → Bool
  | JSONRPCMessage.request _ _ _ => true
  | _ => false

/-- `isInitializeRequest` from the SDK: a request whose method is
`initialize` and whose params carry the schema-required `protocolVersion`
string. -/
def isInitializeRequest : JSONRPCMessage → Bool
  | JSONRPCMessage.request _ m (some p) => m == "initialize" && p.protocolVersion.isSome
  | _ => false

/-- The id a reply correlates to: `message.id` for responses and errors
(`isJSONRPCResponse(message) || isJSONRPCError(message)`), none otherwise. -/
def msgResponseId : JSONRPCMessage → Option RequestId
  | JSONRPCMessage.response rid _ => some rid
  | JSONRPCMessage.error rid _ _ => some rid
  | _ => none

/-! ## JavaScript `Map`s as insertion-ordered association lists -/

/-- `Map.get`: value of the first (unique, for maps built by `mapSet`) entry
with the given key. -/
def mapGet {K V : Type} [DecidableEq K] (m : List (K × V)) (k : K) : Option V :=
  match m.find? (fun e => decide (e.1 = k)) with
  | some e => some e.2
  | none => none

/-- `Map.set`: replace in place if the key exists, append otherwise. -/
def mapSet {K V : Type} [DecidableEq K] : List (K × V) → K → V → List (K × V)
  | [], k, v => [(k, v)]
  | e :: rest, k, v => if e.1 = k then (k, v) :: rest else e :: mapSet rest k v

/-- `Map.delete`. -/
def mapDelete {K V : Type} [DecidableEq K] (m : List (K × V)) (k : K) : List (K × V) :=
  m.filter (fun e => decide (¬ e.1 = k))

/-- Repeated `Map.delete`, as in the `for (const id of relatedIds)` loop. -/
def deleteIds {K V : Type} [DecidableEq K] (m : List (K × V)) (ks : List K) : List (K × V) :=
  ks.foldl (fun acc k => mapDelete acc k) m

/-! ## Protocol versions, CORS configuration and header synthesis -/

def SUPPORTED_PROTOCOL_VERSIONS : List String := ["2025-03-26", "2025-06-18"]

def DEFAULT_PROTOCOL_VERSION : String := "2025-03-26"

/-- `options?.corsOptions` as supplied by the caller; absent fields fall back
to documented defaults inside `getHeaders`. -/
structure CORSOptions where
  origin : Option String := none
  headers : Option String := none
  methods : Option String := none
  exposeHeaders : Option String := none
  maxAge : Option Nat := none
deriving DecidableEq, Repr

def corsOrigin (o : Option CORSOptions) : String :=
  (o.bind (fun c => c.origin)).getD "*"

def corsAllowHeaders (o : Option CORSOptions) : String :=
  (o.bind (fun c => c.headers)).getD
    "Content-Type, Accept, Authorization, mcp-session-id, MCP-Protocol-Version"

def corsMethods (o : Option CORSOptions) : String :=
  (o.bind (fun c => c.methods)).getD "GET, POST, DELETE, OPTIONS"

def corsExpose (o : Option CORSOptions) : String :=
  (o.bind (fun c => c.exposeHeaders)).getD "mcp-session-id"

def corsMaxAge (o : Option CORSOptions) : Nat :=
  (o.bind (fun c => c.maxAge)).getD 86400

/-- `getHeaders({forPreflight})`: the full CORS set for OPTIONS preflight,
origin plus exposed headers for every other response. -/
def getHeaders (o : Option CORSOptions) (forPreflight : Bool) : List (String × String) :=
  if forPreflight then
    [("Access-Control-Allow-Origin", corsOrigin o),
     ("Access-Control-Allow-Headers", corsAllowHeaders o),
     ("Access-Control-Allow-Methods", corsMethods o),
     ("Access-Control-Max-Age", toString (corsMaxAge o))]
  else
    [("Access-Control-Allow-Origin", corsOrigin o),
     ("Access-Control-Expose-Headers", corsExpose o)]

/-! ## HTTP requests, responses and raw bodies -/

/-- The body of an HTTP response, kept structured: `errorObj code msg` stands
for `JSON.stringify({jsonrpc:"2.0", error:{code, message: msg}, id:null})`,
`jsonSingle`/`jsonArray` for the resolved JSON-mode bodies, `sseStream` for a
streamed SSE byte stream. -/
inductive Body
  | empty
  | text (s : String)
  | errorObj (code : Int) (message : String)
  | jsonSingle (msg : JSONRPCMessage)
  | jsonArray (msgs : List JSONRPCMessage)
  | sseStream (streamId : String)
deriving DecidableEq, Repr

structure HttpResponse where
  status : Nat
  headers : List (String × String)
  body : Body
deriving DecidableEq, Repr

/-- A raw element of a POST body before `JSONRPCMessageSchema.parse`. -/
inductive RawMsg
  | valid (m : JSONRPCMessage)
  | invalid
deriving DecidableEq, Repr

/-- A raw POST body: unparsable JSON, a single object, or an array (batch). -/
inductive RawBody
  | invalidJson
  | single (m : RawMsg)
  | array (ms : List RawMsg)
deriving DecidableEq, Repr

structure HttpRequest where
  method : String
  pathname : String
  accept : Option String
  contentType : Option String
  sessionIdHeader : Option String
  versionHeader : Option String
  body : RawBody
deriving DecidableEq, Repr

/-- JS truthiness on a nullable header string: `null` and `""` are falsy. -/
def jsStr : Option String → Option String
  | some s => if s = "" then none else some s
  | none => none

/-- `String.prototype.includes`: substring containment. -/
def strIncludes (s sub : String) : Bool :=
  (s.toList.tails).any (fun t => sub.toList.isPrefixOf t)

/-- `header?.includes(sub)` with optional chaining. -/
def optIncludes (o : Option String) (sub : String) : Bool :=
  match o with
  | some s => strIncludes s sub
  | none => false

/-! ## Transport state -/

/-- A registered stream: either an SSE writer (has `writer`/`encoder`) or a
JSON collector (has `resolveJson`). -/
inductive StreamEntry
  | sseWriter
  | jsonCollector
deriving DecidableEq, Repr

def standaloneSseStreamId : String := "_GET_stream"

/-- Constructor options of `WorkerTransport`.  The session-id generator is
embedded as the id it would produce (`none` when no generator is
configured). -/
structure TransportOptions where
  sessionIdGenerator : Option String := none
  enableJsonResponse : Bool := false
  corsOptions : Option CORSOptions := none
deriving DecidableEq, Repr

/-- The mutable fields of a `WorkerTransport`, together with its
construction-time options. -/
structure TransportState where
  started : Bool
  initialized : Bool
  sessionIdGenerator : Option String
  enableJsonResponse : Bool
  corsOptions : Option CORSOptions
  sessionId : Option String
  protocolVersion : Option String
  streamMapping : List (String × StreamEntry)
  requestToStreamMapping : List (RequestId × String)
  requestResponseMap : List (RequestId × JSONRPCMessage)
deriving DecidableEq, Repr

/-- `new WorkerTransport(options)`. -/
def newTransport (opts : TransportOptions) : TransportState :=
  { started := false
    initialized := false
    sessionIdGenerator := opts.sessionIdGenerator
    enableJsonResponse := opts.enableJsonResponse
    corsOptions := opts.corsOptions
    sessionId := none
    protocolVersion := none
    streamMapping := []
    requestToStreamMapping := []
    requestResponseMap := [] }

/-- Error envelope shared by the transport's failure paths:
`Content-Type: application/json` plus the reduced CORS headers, and a
JSON-RPC error object with `id: null`. -/
def errResponse (st : TransportState) (status : Nat) (code : Int) (msg : String) : HttpResponse :=
  { status := status
    headers := ("Content-Type", "application/json") :: getHeaders st.corsOptions false
    body := Body.errorObj code msg }

/-! ## Session and protocol-version validation -/

/-- `validateSession`: sessionless pass-through when no generator is
configured, 400 before initialization or on a missing `mcp-session-id`
header, 404 on a mismatched one. -/
def validateSession (st : TransportState) (sessionHeader : Option String) : Option HttpResponse :=
  if st.sessionIdGenerator = none then none
  else if st.initialized = false then
    some (errResponse st 400 (-32000) "Bad Request: Server not initialized")
  else
    match jsStr sessionHeader with
    | none => some (errResponse st 400 (-32000) "Bad Request: Mcp-Session-Id header is required")
    | some sid =>
        if some sid = st.sessionId then none
        else some (errResponse st 404 (-32001) "Session not found")

/-- `validateProtocolVersion`: a missing header is tolerated when no version
is pinned or the pinned one is the legacy default; otherwise 400 for a
missing header, an unsupported value, or a supported value that differs from
the pinned one. -/
def validateProtocolVersion (st : TransportState) (versionHeader : Option String) : Option HttpResponse :=
  match jsStr versionHeader with
  | none =>
      if st.protocolVersion = none ∨ st.protocolVersion = some DEFAULT_PROTOCOL_VERSION then none
      else some (errResponse st 400 (-32000) "Bad Request: MCP-Protocol-Version header is required")
  | some v =>
      if v ∈ SUPPORTED_PROTOCOL_VERSIONS then
        match st.protocolVersion with
        | some pv =>
            if v = pv then none
            else some (errResponse st 400 (-32000)
              ("Bad Request: MCP-Protocol-Version mismatch. Expected: " ++ pv ++ ", Got: " ++ v))
        | none => none
      else
        some (errResponse st 400 (-32000)
          ("Bad Request: Unsupported MCP-Protocol-Version: " ++ v ++ ". Supported versions: "
            ++ String.intercalate ", " SUPPORTED_PROTOCOL_VERSIONS))

/-! ## POST body parsing -/

inductive ParseFailure
  | invalidJson
  | invalidRpc
deriving DecidableEq, Repr

def parseRaw : RawMsg → Option JSONRPCMessage
  | RawMsg.valid m => some m
  | RawMsg.invalid => none

/-- Schema-validate every element of a batch; one failure rejects the whole
batch (`rawMessage.map((msg) => JSONRPCMessageSchema.parse(msg))`). -/
def traverseParse : List RawMsg → Option (List JSONRPCMessage)
  | [] => some []
  | rm :: rest =>
      match parseRaw rm, traverseParse rest with
      | some m, some ms => some (m :: ms)
      | _, _ => none

/-- Body handling of `handlePostRequest`: `request.json()` failure is one
parse error, schema failure of the single message or of any batch element is
the other; a single object becomes a one-element message list. -/
def parseBody : RawBody → Except ParseFailure (List JSONRPCMessage)
  | RawBody.invalidJson => Except.error ParseFailure.invalidJson
  | RawBody.single rm =>
      match parseRaw rm with
      | some m => Except.ok [m]
      | none => Except.error ParseFailure.invalidRpc
  | RawBody.array rms =>
      match traverseParse rms with
      | some ms => Except.ok ms
      | none => Except.error ParseFailure.invalidRpc

/-! ## Initialization and dispatch -/

/-- Version capture from the initialize request: pin the requested version
when it is in the whitelist, the legacy default otherwise; when the found
message has no params (impossible for a schema-valid initialize request)
nothing is pinned. -/
def negotiateVersion (st : TransportState) (msgs : List JSONRPCMessage) : TransportState :=
  match msgs.find? isInitializeRequest with
  | some (JSONRPCMessage.request _ _ (some p)) =>
      match jsStr p.protocolVersion with
      | some v =>
          if v ∈ SUPPORTED_PROTOCOL_VERSIONS then { st with protocolVersion := some v }
          else { st with protocolVersion := some DEFAULT_PROTOCOL_VERSION }
      | none => { st with protocolVersion := some DEFAULT_PROTOCOL_VERSION }
  | _ => st

/-- The accepted-initialize mutation: capture the version, then
`this.sessionId = this.sessionIdGenerator?.(); this.initialized = true`. -/
def initializeState (st : TransportState) (msgs : List JSONRPCMessage) : TransportState :=
  { negotiateVersion st msgs with
    sessionId := (negotiateVersion st msgs).sessionIdGenerator
    initialized := true }

/-- Result of a POST: an immediate response, or (JSON mode with requests) a
deferred response resolved later by `send`. -/
inductive PostResult
  | resp (r : HttpResponse)
  | deferredJson (streamId : String)
deriving DecidableEq, Repr

/-- Outcome of a POST: new transport state, HTTP result, and the messages
forwarded to `onmessage` in order. -/
structure PostOutcome where
  state : TransportState
  result : PostResult
  delivered : List JSONRPCMessage
deriving DecidableEq, Repr

/-- `for (const message of messages) if (isJSONRPCRequest(message))
this.requestToStreamMapping.set(message.id, streamId)`. -/
def registerIds (ledger : List (RequestId × String)) (msgs : List JSONRPCMessage)
    (sid : String) : List (RequestId × String) :=
  msgs.foldl
    (fun acc m =>
      match m with
      | JSONRPCMessage.request rid _ _ => mapSet acc rid sid
      | _ => acc)
    ledger

/-- SSE response headers: content type, cache control, the reduced CORS set,
and the session id when one is pinned. -/
def sseHeaders (st : TransportState) : List (String × String) :=
  [("Content-Type", "text/event-stream"), ("Cache-Control", "no-cache"),
   ("Connection", "keep-alive")]
  ++ getHeaders st.corsOptions false
  ++ (match st.sessionId with
      | some s => [("mcp-session-id", s)]
      | none => [])

/-- Tail of `handlePostRequest` after all validation: a request-free batch is
forwarded and answered `202` with an empty body and no stream; otherwise a
fresh stream (JSON collector or SSE writer) is registered, every request id
is entered into the ledger, and the messages are forwarded in array order. -/
def dispatchMessages (st : TransportState) (msgs : List JSONRPCMessage)
    (freshId : String) : PostOutcome :=
  if msgs.any isJSONRPCRequest = false then
    ⟨st,
     PostResult.resp
       { status := 202, headers := getHeaders st.corsOptions false, body := Body.empty },
     msgs⟩
  else if st.enableJsonResponse = true then
    ⟨{ st with
        streamMapping := mapSet st.streamMapping freshId StreamEntry.jsonCollector
        requestToStreamMapping := registerIds st.requestToStreamMapping msgs freshId },
     PostResult.deferredJson freshId, msgs⟩
  else
    ⟨{ st with
        streamMapping := mapSet st.streamMapping freshId StreamEntry.sseWriter
        requestToStreamMapping := registerIds st.requestToStreamMapping msgs freshId },
     PostResult.resp { status := 200, headers := sseHeaders st, body := Body.sseStream freshId },
     msgs⟩

/-- `handlePostRequest`: content negotiation, body parsing, the
initialize-batch checks (rejected only when `initialized && sessionId !==
undefined`, or when the batch has more than one message), session and version
validation for non-initialize batches, then dispatch.  `freshId` stands for
the `crypto.randomUUID()` stream id. -/
def handlePostRequest (st : TransportState) (req : HttpRequest) (freshId : String) : PostOutcome :=
  if optIncludes req.accept "application/json" = true ∧ optIncludes req.accept "text/event-stream" = true then
    if optIncludes req.contentType "application/json" = true then
      match parseBody req.body with
      | Except.error ParseFailure.invalidJson =>
          ⟨st, PostResult.resp (errResponse st 400 (-32700) "Parse error: Invalid JSON"), []⟩
      | Except.error ParseFailure.invalidRpc =>
          ⟨st, PostResult.resp (errResponse st 400 (-32700) "Parse error: Invalid JSON-RPC message"), []⟩
      | Except.ok msgs =>
          if msgs.any isInitializeRequest = true then
            if st.initialized = true ∧ st.sessionId ≠ none then
              ⟨st, PostResult.resp (errResponse st 400 (-32600)
                    "Invalid Request: Server already initialized"), []⟩
            else if 1 < msgs.length then
              ⟨st, PostResult.resp (errResponse st 400 (-32600)
                    "Invalid Request: Only one initialization request is allowed"), []⟩
            else
              dispatchMessages (initializeState st msgs) msgs freshId
          else
            match validateSession st req.sessionIdHeader with
            | some r => ⟨st, PostResult.resp r, []⟩
            | none =>
                match validateProtocolVersion st req.versionHeader with
                | some r => ⟨st, PostResult.resp r, []⟩
                | none => dispatchMessages st msgs freshId
    else
      ⟨st, PostResult.resp (errResponse st 415 (-32000)
            "Unsupported Media Type: Content-Type must be application/json"), []⟩
  else
    ⟨st, PostResult.resp (errResponse st 406 (-32000)
          "Not Acceptable: Client must accept both application/json and text/event-stream"), []⟩

/-! ## GET, DELETE, OPTIONS, unsupported methods -/

/-- `handleGetRequest`: requires `Accept: text/event-stream`, validates
session and version, rejects a second standalone stream with 409, otherwise
registers the standalone SSE stream. -/
def handleGetRequest (st : TransportState) (req : HttpRequest) : TransportState × HttpResponse :=
  if optIncludes req.accept "text/event-stream" = false then
    (st, errResponse st 406 (-32000) "Not Acceptable: Client must accept text/event-stream")
  else
    match validateSession st req.sessionIdHeader with
    | some r => (st, r)
    | none =>
        match validateProtocolVersion st req.versionHeader with
        | some r => (st, r)
        | none =>
            if (mapGet st.streamMapping standaloneSseStreamId).isSome then
              (st, errResponse st 409 (-32000) "Conflict: Only one SSE stream is allowed per session")
            else
              ({ st with
                  streamMapping := mapSet st.streamMapping standaloneSseStreamId StreamEntry.sseWriter },
               { status := 200, headers := sseHeaders st, body := Body.sseStream standaloneSseStreamId })

/-- One `SendEffect` per observable asynchronous action of the transport. -/
inductive SendEffect
  | sseWrite (streamId : String) (message : JSONRPCMessage)
  | resolveJson (streamId : String) (response : HttpResponse)
  | streamCleanup (streamId : String)
deriving DecidableEq, Repr

/-- `close()`: runs every stream's cleanup (each deletes its own entry and
closes its writer or timer), then clears `streamMapping` and
`requestResponseMap`.  `requestToStreamMapping` is not touched. -/
def close (st : TransportState) : TransportState × List SendEffect :=
  ({ st with streamMapping := [], requestResponseMap := [] },
   st.streamMapping.map (fun e => SendEffect.streamCleanup e.1))

/-- `handleDeleteRequest`: session and version validation, then `close()` and
a `200` with the reduced CORS headers. -/
def handleDeleteRequest (st : TransportState) (req : HttpRequest) :
    TransportState × HttpResponse × List SendEffect :=
  match validateSession st req.sessionIdHeader with
  | some r => (st, r, [])
  | none =>
      match validateProtocolVersion st req.versionHeader with
      | some r => (st, r, [])
      | none =>
          ((close st).1,
           { status := 200, headers := getHeaders st.corsOptions false, body := Body.empty },
           (close st).2)

/-- `handleOptionsRequest`: `200` with the full preflight CORS headers. -/
def handleOptionsRequest (st : TransportState) : HttpResponse :=
  { status := 200, headers := getHeaders st.corsOptions true, body := Body.empty }

/-- `handleUnsupportedRequest`: a 405 with an `Allow` header; note that the
source does not spread `getHeaders()` into this response. -/
def methodNotAllowedResponse : HttpResponse :=
  { status := 405
    headers := [("Allow", "GET, POST, DELETE, OPTIONS"), ("Content-Type", "application/json")]
    body := Body.errorObj (-32000) "Method not allowed." }

/-- Outcome of `handleRequest`: new state, HTTP result, forwarded messages,
and cleanup effects (from DELETE). -/
structure HandleOutcome where
  state : TransportState
  result : PostResult
  delivered : List JSONRPCMessage
  effects : List SendEffect
deriving DecidableEq, Repr

/-- `handleRequest`: dispatch on the HTTP method. -/
def handleRequest (st : TransportState) (req : HttpRequest) (freshId : String) : HandleOutcome :=
  if req.method = "OPTIONS" then
    ⟨st, PostResult.resp (handleOptionsRequest st), [], []⟩
  else if req.method = "GET" then
    ⟨(handleGetRequest st req).1, PostResult.resp (handleGetRequest st req).2, [], []⟩
  else if req.method = "POST" then
    ⟨(handlePostRequest st req freshId).state, (handlePostRequest st req freshId).result,
     (handlePostRequest st req freshId).delivered, []⟩
  else if req.method = "DELETE" then
    ⟨(handleDeleteRequest st req).1, PostResult.resp (handleDeleteRequest st req).2.1, [],
     (handleDeleteRequest st req).2.2⟩
  else
    ⟨st, PostResult.resp methodNotAllowedResponse, [], []⟩

/-! ## `send` -/

def noConnectionError (rid : RequestId) : String :=
  "No connection established for request ID: " ++ ridString rid

/-- Request ids registered against a stream, in ledger (insertion) order:
`Array.from(this.requestToStreamMapping.entries()).filter(([, sid]) => sid ===
streamId).map(([id]) => id)`. -/
def relatedIdsOf (ledger : List (RequestId × String)) (sid : String) : List RequestId :=
  (ledger.filter (fun e => decide (e.2 = sid))).map (fun e => e.1)

/-- `relatedIds.every((id) => this.requestResponseMap.has(id))`. -/
def allResponsesReady (ledger : List (RequestId × String))
    (rrm : List (RequestId × JSONRPCMessage)) (sid : String) : Bool :=
  (relatedIdsOf ledger sid).all (fun i => (mapGet rrm i).isSome)

/-- `relatedIds.map((id) => this.requestResponseMap.get(id)!)`; the non-null
assertion is embedded as `getD fallback`, exact whenever every related id has
a recorded response. -/
def collectResponses (ledger : List (RequestId × String))
    (rrm : List (RequestId × JSONRPCMessage)) (sid : String)
    (fallback : JSONRPCMessage) : List JSONRPCMessage :=
  (relatedIdsOf ledger sid).map (fun i => (mapGet rrm i).getD fallback)

/-- `responses.length === 1 ? responses[0] : responses`. -/
def jsonBody : List JSONRPCMessage → Body
  | [r] => Body.jsonSingle r
  | rs => Body.jsonArray rs

/-- Headers of the resolved JSON-mode response. -/
def jsonRespHeaders (st : TransportState) : List (String × String) :=
  ("Content-Type", "application/json") :: getHeaders st.corsOptions false
  ++ (match st.sessionId with
      | some s => [("mcp-session-id", s)]
      | none => [])

/-- The write `send` performs before completion bookkeeping: only in SSE mode
and only when the stream has a writer. -/
def sendWrites (st : TransportState) (streamId : String) (entry : StreamEntry)
    (message : JSONRPCMessage) : List SendEffect :=
  if st.enableJsonResponse = false ∧ entry = StreamEntry.sseWriter then
    [SendEffect.sseWrite streamId message]
  else []

/-- `send` for a response or error carrying request id `rid`: route through
the ledger (throwing when the id or its stream is unknown), record the reply,
and on completion either resolve the deferred JSON response or clean the SSE
stream up, then forget the related ledger and response-map entries. -/
def sendReply (st : TransportState) (message : JSONRPCMessage) (rid : RequestId) :
    Except String (TransportState × List SendEffect) :=
  match mapGet st.requestToStreamMapping rid with
  | none => Except.error (noConnectionError rid)
  | some streamId =>
      match mapGet st.streamMapping streamId with
      | none => Except.error (noConnectionError rid)
      | some entry =>
          if allResponsesReady st.requestToStreamMapping
              (mapSet st.requestResponseMap rid message) streamId = true then
            if st.enableJsonResponse = true ∧ entry = StreamEntry.jsonCollector then
              Except.ok
                ({ st with
                    requestResponseMap :=
                      deleteIds (mapSet st.requestResponseMap rid message)
                        (relatedIdsOf st.requestToStreamMapping streamId)
                    requestToStreamMapping :=
                      deleteIds st.requestToStreamMapping
                        (relatedIdsOf st.requestToStreamMapping streamId) },
                 sendWrites st streamId entry message ++
                   [SendEffect.resolveJson streamId
                     { status := 200
                       headers := jsonRespHeaders st
                       body := jsonBody (collectResponses st.requestToStreamMapping
                         (mapSet st.requestResponseMap rid message) streamId message) }])
            else
              Except.ok
                ({ st with
                    streamMapping := mapDelete st.streamMapping streamId
                    requestResponseMap :=
                      deleteIds (mapSet st.requestResponseMap rid message)
                        (relatedIdsOf st.requestToStreamMapping streamId)
                    requestToStreamMapping :=
                      deleteIds st.requestToStreamMapping
                        (relatedIdsOf st.requestToStreamMapping streamId) },
                 sendWrites st streamId entry message ++ [SendEffect.streamCleanup streamId])
          else
            Except.ok
              ({ st with requestResponseMap := mapSet st.requestResponseMap rid message },
               sendWrites st streamId entry message)

/-- `send` for a message without a correlated request id: write it to the
standalone SSE stream when one exists, silently drop it otherwise. -/
def sendStandalone (st : TransportState) (message : JSONRPCMessage) :
    Except String (TransportState × List SendEffect) :=
  match mapGet st.streamMapping standaloneSseStreamId with
  | none => Except.ok (st, [])
  | some StreamEntry.sseWriter =>
      Except.ok (st, [SendEffect.sseWrite standaloneSseStreamId message])
  | some StreamEntry.jsonCollector => Except.ok (st, [])

/-- `send(message)`. -/
def send (st : TransportState) (message : JSONRPCMessage) :
    Except String (TransportState × List SendEffect) :=
  match message with
  | JSONRPCMessage.request _ _ _ => sendStandalone st message
  | JSONRPCMessage.notification _ => sendStandalone st message
  | JSONRPCMessage.response rid _ => sendReply st message rid
  | JSONRPCMessage.error rid _ _ => sendReply st message rid

/-- Sequential delivery of a list of handler replies through `send`. -/
def sendAll (st : TransportState) (ms : List JSONRPCMessage) :
    Except String (TransportState × List SendEffect) :=
  match ms with
  | [] => Except.ok (st, [])
  | m :: rest =>
      match send st m with
      | Except.error e => Except.error e
      | Except.ok (st1, effs) =>
          match sendAll st1 rest with
          | Except.error e => Except.error e
          | Except.ok (st2, effs2) => Except.ok (st2, effs ++ effs2)

/-! ## `createMcpHandler` -/

/-- `new Response("Not Found", { status: 404 })`. -/
def notFoundResponse : HttpResponse :=
  { status := 404, headers := [], body := Body.text "Not Found" }

/-- Observable outcome of one call to the function returned by
`createMcpHandler`: the immediate response when there is one (`none` for the
deferred JSON promise), whether `transport.handleRequest` was invoked, and
the final state of the per-call transport. -/
structure McpCall where
  response : Option HttpResponse
  invoked : Bool
  state : TransportState
deriving DecidableEq, Repr

/-- One call of the handler returned by `createMcpHandler(server, options)`:
route gating (`route ?? "/mcp"`, skipped when the configured route is the
empty string because of JS truthiness), then a fresh transport is constructed
and `server.connect` starts it before `handleRequest` runs. -/
def mcpHandler (opts : TransportOptions) (route : Option String) (req : HttpRequest)
    (freshId : String) : McpCall :=
  if route.getD "/mcp" ≠ "" ∧ req.pathname ≠ route.getD "/mcp" then
    { response := some notFoundResponse
      invoked := false
      state := newTransport opts }
  else
    { response :=
        match (handleRequest { newTransport opts with started := true } req freshId).result with
        | PostResult.resp r => some r
        | PostResult.deferredJson _ => none
      invoked := true
      state := (handleRequest { newTransport opts with started := true } req freshId).state }

/-- The ids of the request-type messages of a batch, in array order. -/
def requestIds (msgs : List JSONRPCMessage) : List RequestId :=
  msgs.filterMap
    (fun m =>
      match m with
      | JSONRPCMessage.request rid _ _ => some rid
      | _ => none)

/-! ## Lemmas about the embedded `Map` operations -/

theorem mapGet_nil {K V : Type} [DecidableEq K] (k : K) :
    mapGet ([] : List (K × V)) k = none := rfl

theorem mapGet_cons {K V : Type} [DecidableEq K] (e : K × V) (m : List (K × V)) (k : K) :
    mapGet (e :: m) k = if e.1 = k then some e.2 else mapGet m k := by
  by_cases h : e.1 = k <;> simp [mapGet, List.find?_cons, h]

theorem mapGet_mapSet_self {K V : Type} [DecidableEq K] (m : List (K × V)) (k : K) (v : V) :
    mapGet (mapSet m k v) k = some v := by
  induction m with
  | nil => simp [mapSet, mapGet_cons]
  | cons e rest ih =>
      by_cases h : e.1 = k
      · simp [mapSet, h, mapGet_cons]
      · simp [mapSet, h, mapGet_cons, ih]

theorem mapGet_mapSet_ne {K V : Type} [DecidableEq K] (m : List (K × V)) (k k' : K) (v : V)
    (h : k' ≠ k) : mapGet (mapSet m k v) k' = mapGet m k' := by
  have h1 : ¬ (k = k') := fun hk => h hk.symm
  induction m with
  | nil =>
      have h0 : mapSet ([] : List (K × V)) k v = [(k, v)] := rfl
      rw [h0, mapGet_cons, mapGet_nil]
      exact if_neg h1
  | cons e rest ih =>
      by_cases he : e.1 = k
      · rw [mapSet, if_pos he, mapGet_cons, mapGet_cons]
        have h2 : ¬ (e.1 = k') := fun hk => h1 (he ▸ hk)
        rw [if_neg h1, if_neg h2]
      · rw [mapSet, if_neg he, mapGet_cons, mapGet_cons, ih]

theorem mapSet_eq_append {K V : Type} [DecidableEq K] (m : List (K × V)) (k : K) (v : V)
    (h : mapGet m k = none) : mapSet m k v = m ++ [(k, v)] := by
  induction m with
  | nil => rfl
  | cons e rest ih =>
      rw [mapGet_cons] at h
      by_cases he : e.1 = k
      · rw [if_pos he] at h; exact absurd h (by simp)
      · rw [if_neg he] at h
        rw [mapSet, if_neg he, ih h, List.cons_append]

theorem mapGet_append {K V : Type} [DecidableEq K] (a b : List (K × V)) (k : K)
    (h : mapGet a k = none) : mapGet (a ++ b) k = mapGet b k := by
  induction a with
  | nil => rfl
  | cons e rest ih =>
      rw [mapGet_cons] at h
      by_cases he : e.1 = k
      · rw [if_pos he] at h; exact absurd h (by simp)
      · rw [if_neg he] at h
        rw [List.cons_append, mapGet_cons, if_neg he, ih h]

theorem deleteIds_eq_filter {K V : Type} [DecidableEq K] (ks : List K) (m : List (K × V)) :
    deleteIds m ks = m.filter (fun e => decide (e.1 ∉ ks)) := by
  induction ks generalizing m with
  | nil => simp [deleteIds]
  | cons k ks ih =>
      have h1 : deleteIds m (k :: ks) = deleteIds (mapDelete m k) ks := rfl
      rw [h1, ih, mapDelete, List.filter_filter]
      apply List.filter_congr
      intro e _
      by_cases h2 : e.1 = k <;> by_cases h3 : e.1 ∈ ks <;> simp [h2, h3]

theorem mapGet_deleteIds_of_mem {K V : Type} [DecidableEq K] (m : List (K × V)) (ks : List K)
    (k : K) (h : k ∈ ks) : mapGet (deleteIds m ks) k = none := by
  rw [deleteIds_eq_filter, mapGet]
  have : (m.filter (fun e => decide (e.1 ∉ ks))).find? (fun e => decide (e.1 = k)) = none := by
    rw [List.find?_eq_none]
    intro e he
    rw [List.mem_filter] at he
    intro hk
    have h2 : e.1 ∉ ks := by simpa using he.2
    have h3 : e.1 = k := by simpa using hk
    exact h2 (h3 ▸ h)
  rw [this]

theorem mapGet_deleteIds_of_not_mem {K V : Type} [DecidableEq K] (m : List (K × V))
    (ks : List K) (k : K) (h : k ∉ ks) : mapGet (deleteIds m ks) k = mapGet m k := by
  rw [deleteIds_eq_filter]
  induction m with
  | nil => rfl
  | cons e rest ih =>
      by_cases he : e.1 ∈ ks
      · have hne : ¬ e.1 = k := fun hk => h (hk ▸ he)
        rw [List.filter_cons, if_neg (by simpa using he), mapGet_cons, if_neg hne, ih]
      · rw [List.filter_cons, if_pos (by simpa using he), mapGet_cons, mapGet_cons, ih]

theorem mem_relatedIdsOf (m : List (RequestId × String)) (sid : String) (i : RequestId) :
    i ∈ relatedIdsOf m sid ↔ (i, sid) ∈ m := by
  constructor
  · intro h
    rw [relatedIdsOf, List.mem_map] at h
    obtain ⟨e, he, hi⟩ := h
    rw [List.mem_filter] at he
    have h2 : e.2 = sid := by simpa using he.2
    have : e = (i, sid) := by
      obtain ⟨a, b⟩ := e
      simp only at hi h2
      rw [hi, h2]
    exact this ▸ he.1
  · intro h
    rw [relatedIdsOf, List.mem_map]
    exact ⟨(i, sid), List.mem_filter.2 ⟨h, by simp⟩, rfl⟩

theorem mapGet_deleteIds_related (m : List (RequestId × String)) (sid : String)
    (rid : RequestId) : mapGet (deleteIds m (relatedIdsOf m sid)) rid ≠ some sid := by
  intro h
  rw [mapGet] at h
  cases hf : (deleteIds m (relatedIdsOf m sid)).find? (fun e => decide (e.1 = rid)) with
  | none => rw [hf] at h; exact absurd h (by simp)
  | some e =>
      rw [hf] at h
      have h2 : e.2 = sid := by simpa using h
      have hkey : e.1 = rid := by simpa using List.find?_some hf
      have hmem : e ∈ deleteIds m (relatedIdsOf m sid) := List.mem_of_find?_eq_some hf
      rw [deleteIds_eq_filter, List.mem_filter] at hmem
      have hnot : e.1 ∉ relatedIdsOf m sid := by simpa using hmem.2
      apply hnot
      rw [mem_relatedIdsOf]
      have : e = (e.1, sid) := by
        obtain ⟨a, b⟩ := e
        simp only at h2
        rw [h2]
      exact this ▸ hmem.1

theorem relatedIdsOf_append (a b : List (RequestId × String)) (sid : String) :
    relatedIdsOf (a ++ b) sid = relatedIdsOf a sid ++ relatedIdsOf b sid := by
  rw [relatedIdsOf, relatedIdsOf, relatedIdsOf, List.filter_append, List.map_append]

theorem relatedIdsOf_eq_nil (ledger : List (RequestId × String)) (sid : String)
    (h : ∀ p ∈ ledger, p.2 ≠ sid) : relatedIdsOf ledger sid = [] := by
  rw [relatedIdsOf]
  have : ledger.filter (fun e => decide (e.2 = sid)) = [] := by
    rw [List.filter_eq_nil_iff]
    intro e he
    simpa using h e he
  rw [this, List.map_nil]

theorem relatedIdsOf_map_pair (ids : List RequestId) (sid : String) :
    relatedIdsOf (ids.map (fun i => (i, sid))) sid = ids := by
  induction ids with
  | nil => rfl
  | cons i rest ih =>
      rw [List.map_cons, relatedIdsOf, List.filter_cons, if_pos (by simp), List.map_cons]
      rw [relatedIdsOf] at ih
      rw [ih]

theorem mapGet_map_pair (ids : List RequestId) (sid : String) (i : RequestId) (h : i ∈ ids) :
    mapGet (ids.map (fun j => (j, sid))) i = some sid := by
  induction ids with
  | nil => exact absurd h (by simp)
  | cons j rest ih =>
      rw [List.map_cons, mapGet_cons]
      by_cases hj : j = i
      · rw [if_pos hj]
      · rw [if_neg hj]
        have h2 : i ∈ rest := by
          rcases List.mem_cons.1 h with h1 | h1
          · exact absurd h1.symm hj
          · exact h1
        exact ih h2

theorem registerIds_fresh (ledger : List (RequestId × String)) (msgs : List JSONRPCMessage)
    (sid : String) (hnd : (requestIds msgs).Nodup)
    (hnone : ∀ i ∈ requestIds msgs, mapGet ledger i = none) :
    registerIds ledger msgs sid = ledger ++ (requestIds msgs).map (fun i => (i, sid)) := by
  induction msgs generalizing ledger with
  | nil => simp [registerIds, requestIds]
  | cons m rest ih =>
      cases m with
      | request rid mth ps =>
          have hreq : requestIds (JSONRPCMessage.request rid mth ps :: rest)
              = rid :: requestIds rest := by
            simp [requestIds, List.filterMap_cons]
          rw [hreq] at hnd hnone
          have hnd2 := List.nodup_cons.1 hnd
          have h1 : registerIds ledger (JSONRPCMessage.request rid mth ps :: rest) sid
              = registerIds (mapSet ledger rid sid) rest sid := rfl
          rw [h1, mapSet_eq_append ledger rid sid (hnone rid (List.mem_cons_self _ _))]
          rw [ih (ledger ++ [(rid, sid)]) hnd2.2 (by
            intro i hi
            have hne : ¬ ((rid, sid) : RequestId × String).1 = i := by
              simp only
              intro hx
              exact hnd2.1 (hx ▸ hi)
            rw [mapGet_append _ _ _ (hnone i (List.mem_cons_of_mem _ hi)), mapGet_cons,
              if_neg hne, mapGet_nil])]
          rw [hreq, List.map_cons, List.append_assoc, List.singleton_append]
      | notification mth =>
          have hreq : requestIds (JSONRPCMessage.notification mth :: rest) = requestIds rest := by
            simp [requestIds, List.filterMap_cons]
          rw [hreq] at hnd hnone
          exact ih ledger hnd hnone
      | response rid res =>
          have hreq : requestIds (JSONRPCMessage.response rid res :: rest) = requestIds rest := by
            simp [requestIds, List.filterMap_cons]
          rw [hreq] at hnd hnone
          exact ih ledger hnd hnone
      | error rid c msg =>
          have hreq : requestIds (JSONRPCMessage.error rid c msg :: rest) = requestIds rest := by
            simp [requestIds, List.filterMap_cons]
          rw [hreq] at hnd hnone
          exact ih ledger hnd hnone

/-! ## Preservation lemmas for the POST pipeline -/

theorem negotiateVersion_eq (st : TransportState) (msgs : List JSONRPCMessage) :
    negotiateVersion st msgs
      = { st with protocolVersion := (negotiateVersion st msgs).protocolVersion } := by
  unfold negotiateVersion
  split
  · split <;> first | rfl | (split <;> rfl)
  · rfl

theorem initializeState_eq (st : TransportState) (msgs : List JSONRPCMessage) :
    initializeState st msgs
      = { st with
          protocolVersion := (negotiateVersion st msgs).protocolVersion
          sessionId := st.sessionIdGenerator
          initialized := true } := by
  rw [initializeState]
  rw [negotiateVersion_eq st msgs]

theorem dispatchMessages_state_eq (st : TransportState) (msgs : List JSONRPCMessage)
    (freshId : String) :
    (dispatchMessages st msgs freshId).state
      = { st with
          streamMapping := (dispatchMessages st msgs freshId).state.streamMapping
          requestToStreamMapping :=
            (dispatchMessages st msgs freshId).state.requestToStreamMapping } := by
  unfold dispatchMessages
  split
  · rfl
  · split <;> rfl

/-! ## Inversion lemmas for `send` -/

theorem mem_sendWrites (st : TransportState) (sid : String) (entry : StreamEntry)
    (m : JSONRPCMessage) (e : SendEffect) (h : e ∈ sendWrites st sid entry m) :
    e = SendEffect.sseWrite sid m := by
  unfold sendWrites at h
  split at h
  · simpa using h
  · simp at h

/-- Every effect emitted by a successful `send` is an SSE write, or a stream
completion (JSON resolution or cleanup), and on completion the new ledger has
forgotten every id registered against the completed stream. -/
theorem send_ok_effects (st : TransportState) (m : JSONRPCMessage) (st2 : TransportState)
    (effs : List SendEffect) (h : send st m = Except.ok (st2, effs)) :
    ∀ e ∈ effs,
      (∃ sid msg, e = SendEffect.sseWrite sid msg) ∨
      (∃ sid r, e = SendEffect.resolveJson sid r ∧ r.headers = jsonRespHeaders st ∧
        st2.requestToStreamMapping
          = deleteIds st.requestToStreamMapping (relatedIdsOf st.requestToStreamMapping sid)) ∨
      (∃ sid, e = SendEffect.streamCleanup sid ∧
        st2.requestToStreamMapping
          = deleteIds st.requestToStreamMapping (relatedIdsOf st.requestToStreamMapping sid)) := by
  have hstandalone : ∀ (hs : sendStandalone st m = Except.ok (st2, effs)), ∀ e ∈ effs,
      (∃ sid msg, e = SendEffect.sseWrite sid msg) ∨
      (∃ sid r, e = SendEffect.resolveJson sid r ∧ r.headers = jsonRespHeaders st ∧
        st2.requestToStreamMapping
          = deleteIds st.requestToStreamMapping (relatedIdsOf st.requestToStreamMapping sid)) ∨
      (∃ sid, e = SendEffect.streamCleanup sid ∧
        st2.requestToStreamMapping
          = deleteIds st.requestToStreamMapping (relatedIdsOf st.requestToStreamMapping sid)) := by
    intro hs e he
    unfold sendStandalone at hs
    split at hs <;>
      simp only [Except.ok.injEq, Prod.mk.injEq] at hs <;>
      rw [← hs.2] at he
    · simp at he
    · left
      exact ⟨standaloneSseStreamId, m, by simpa using he⟩
    · simp at he
  have hreply : ∀ rid, ∀ (hs : sendReply st m rid = Except.ok (st2, effs)), ∀ e ∈ effs,
      (∃ sid msg, e = SendEffect.sseWrite sid msg) ∨
      (∃ sid r, e = SendEffect.resolveJson sid r ∧ r.headers = jsonRespHeaders st ∧
        st2.requestToStreamMapping
          = deleteIds st.requestToStreamMapping (relatedIdsOf st.requestToStreamMapping sid)) ∨
      (∃ sid, e = SendEffect.streamCleanup sid ∧
        st2.requestToStreamMapping
          = deleteIds st.requestToStreamMapping (relatedIdsOf st.requestToStreamMapping sid)) := by
    intro rid hs e he
    unfold sendReply at hs
    split at hs
    · simp at hs
    · split at hs
      · simp at hs
      · split at hs
        · split at hs
          · simp only [Except.ok.injEq, Prod.mk.injEq] at hs
            rw [← hs.2] at he
            rcases List.mem_append.1 he with hw | hr
            · exact Or.inl ⟨_, _, mem_sendWrites _ _ _ _ _ hw⟩
            · refine Or.inr (Or.inl ⟨_, _, by simpa using hr, rfl, ?_⟩)
              rw [← hs.1]
          · simp only [Except.ok.injEq, Prod.mk.injEq] at hs
            rw [← hs.2] at he
            rcases List.mem_append.1 he with hw | hr
            · exact Or.inl ⟨_, _, mem_sendWrites _ _ _ _ _ hw⟩
            · refine Or.inr (Or.inr ⟨_, by simpa using hr, ?_⟩)
              rw [← hs.1]
        · simp only [Except.ok.injEq, Prod.mk.injEq] at hs
          rw [← hs.2] at he
          exact Or.inl ⟨_, _, mem_sendWrites _ _ _ _ _ he⟩
  cases m with
  | request id mth ps => exact hstandalone h
  | notification mth => exact hstandalone h
  | response rid res => exact hreply rid h
  | error rid c msg => exact hreply rid h

/-! ## C1: ledger cleanup -/

def c1State : TransportState :=
  { started := true
    initialized := true
    sessionIdGenerator := none
    enableJsonResponse := true
    corsOptions := none
    sessionId := none
    protocolVersion := some "2025-03-26"
    streamMapping := [("s1", StreamEntry.jsonCollector)]
    requestToStreamMapping := [(RequestId.num 1, "s1")]
    requestResponseMap := [] }

def c1After : TransportState :=
  { c1State with requestToStreamMapping := [], requestResponseMap := [] }

def c1Resp : HttpResponse :=
  { status := 200
    headers := jsonRespHeaders c1State
    body := Body.jsonSingle (JSONRPCMessage.response (RequestId.num 1) "ok") }

def c1Effs : List SendEffect := [SendEffect.resolveJson "s1" c1Resp]

/-- C1, counterexample: `close()` clears `streamMapping` and
`requestResponseMap` but does not remove ledger entries — after closing a
transport with one pending request id, that id is still mapped in
`requestToStreamMapping`, contradicting the claim that the ledger retains no
entry after `close()` returns. -/
theorem c1_counterexample :
    mapGet (close c1State).1.requestToStreamMapping (RequestId.num 1) = some "s1"
      ∧ (close c1State).1.streamMapping = [] := by
  constructor
  · rfl
  · rfl

/-- C1 (amended): a request id is removed from the
`requestToStreamMapping` ledger when its response is recorded and the owning
stream completes (every id registered against the completed stream is
forgotten); `close()`, however, clears the stream registry and the
response map but leaves the ledger entries in place. -/
theorem c1_ledger_cleanup :
    (∀ (st : TransportState) (m : JSONRPCMessage) (st2 : TransportState)
        (effs : List SendEffect), send st m = Except.ok (st2, effs) →
      ∀ sid : String,
        ((∃ r, SendEffect.resolveJson sid r ∈ effs) ∨ SendEffect.streamCleanup sid ∈ effs) →
      ∀ rid : RequestId, mapGet st2.requestToStreamMapping rid ≠ some sid)
    ∧ (∀ st : TransportState,
        (close st).1.requestToStreamMapping = st.requestToStreamMapping
          ∧ (close st).1.streamMapping = [] ∧ (close st).1.requestResponseMap = []) := by
  constructor
  · intro st m st2 effs h sid heff rid
    rcases heff with ⟨r, hmem⟩ | hmem
    · rcases send_ok_effects st m st2 effs h _ hmem with ⟨s, mg, hx⟩ | ⟨s, r2, hx, _, hl⟩ | ⟨s, hx, _⟩
      · exact absurd hx (by simp)
      · have hsid : s = sid := by
          have := hx
          simp only [SendEffect.resolveJson.injEq] at this
          exact this.1.symm
        rw [hl, hsid]
        exact mapGet_deleteIds_related _ _ _
      · exact absurd hx (by simp)
    · rcases send_ok_effects st m st2 effs h _ hmem with ⟨s, mg, hx⟩ | ⟨s, r2, hx, _, _⟩ | ⟨s, hx, hl⟩
      · exact absurd hx (by simp)
      · exact absurd hx (by simp)
      · have hsid : s = sid := by
          have := hx
          simp only [SendEffect.streamCleanup.injEq] at this
          exact this.symm
        rw [hl, hsid]
        exact mapGet_deleteIds_related _ _ _
  · intro st
    exact ⟨rfl, rfl, rfl⟩

/-- C1, witness: on a JSON-mode transport with one pending request for stream
`s1`, sending its response completes the stream and the ledger indeed forgets
the id. -/
theorem c1_ledger_cleanup_witness :
    mapGet c1After.requestToStreamMapping (RequestId.num 1) ≠ some "s1" :=
  c1_ledger_cleanup.1 c1State (JSONRPCMessage.response (RequestId.num 1) "ok") c1After c1Effs
    rfl "s1" (Or.inl ⟨c1Resp, by decide⟩) (RequestId.num 1)

/-! ## C3: unroutable replies -/

/-- C3 (amended): a response or error whose request id has no ledger entry
makes `send` fail with the error
`No connection established for request ID: <id>` — it is not dropped
silently. -/
theorem c3_unroutable_send_throws (st : TransportState) (m : JSONRPCMessage) (rid : RequestId)
    (hid : msgResponseId m = some rid)
    (hledger : mapGet st.requestToStreamMapping rid = none) :
    send st m = Except.error (noConnectionError rid) := by
  cases m with
  | request id mth ps => simp [msgResponseId] at hid
  | notification mth => simp [msgResponseId] at hid
  | response r res =>
      have hr : r = rid := by simpa [msgResponseId] using hid
      subst hr
      show sendReply st (JSONRPCMessage.response r res) r = Except.error (noConnectionError r)
      unfold sendReply
      rw [hledger]
  | error r c msg =>
      have hr : r = rid := by simpa [msgResponseId] using hid
      subst hr
      show sendReply st (JSONRPCMessage.error r c msg) r = Except.error (noConnectionError r)
      unfold sendReply
      rw [hledger]

def c3State : TransportState := newTransport {}

/-- C3, counterexample: on a fresh transport (empty ledger), sending a
response for request id 1 raises
`No connection established for request ID: 1` instead of returning
normally, contradicting the claimed silent drop. -/
theorem c3_counterexample :
    send c3State (JSONRPCMessage.response (RequestId.num 1) "ok")
      = Except.error "No connection established for request ID: 1" := rfl

/-- C3, witness: the amended statement applies to a concrete unroutable
error message. -/
theorem c3_unroutable_send_throws_witness :
    send c3State (JSONRPCMessage.error (RequestId.str "a") 5 "boom")
      = Except.error (noConnectionError (RequestId.str "a")) :=
  c3_unroutable_send_throws c3State (JSONRPCMessage.error (RequestId.str "a") 5 "boom")
    (RequestId.str "a") (by decide) (by decide)

/-! ## C5: protocol-version header validation -/

theorem supported_ne_empty (v : String) (h : v ∈ SUPPORTED_PROTOCOL_VERSIONS) : v ≠ "" := by
  rcases (by simpa [SUPPORTED_PROTOCOL_VERSIONS] using h :
      v = "2025-03-26" ∨ v = "2025-06-18") with h1 | h1 <;> simp [h1]

/-- C5: with a supported version pinned, a missing `MCP-Protocol-Version`
header is accepted exactly when the pinned version is the default
`2025-03-26`; otherwise a missing header yields 400 saying the header is
required, a (nonempty) value outside the whitelist yields 400 naming the
supported versions, a supported value differing from the pinned one yields
400 naming the expected and received values, and the pinned value itself
passes.  (An empty header value is treated by the source like a missing
header, via JS truthiness.) -/
theorem c5_version_header_validation (st : TransportState) (pv : String)
    (hpin : st.protocolVersion = some pv) (hsup : pv ∈ SUPPORTED_PROTOCOL_VERSIONS) :
    (pv = DEFAULT_PROTOCOL_VERSION → validateProtocolVersion st none = none) ∧
    (pv ≠ DEFAULT_PROTOCOL_VERSION →
      validateProtocolVersion st none
        = some (errResponse st 400 (-32000)
            "Bad Request: MCP-Protocol-Version header is required")) ∧
    (∀ v : String, v ≠ "" → v ∉ SUPPORTED_PROTOCOL_VERSIONS →
      validateProtocolVersion st (some v)
        = some (errResponse st 400 (-32000)
            ("Bad Request: Unsupported MCP-Protocol-Version: " ++ v ++ ". Supported versions: "
              ++ String.intercalate ", " SUPPORTED_PROTOCOL_VERSIONS))) ∧
    (∀ v : String, v ∈ SUPPORTED_PROTOCOL_VERSIONS → v ≠ pv →
      validateProtocolVersion st (some v)
        = some (errResponse st 400 (-32000)
            ("Bad Request: MCP-Protocol-Version mismatch. Expected: " ++ pv ++ ", Got: " ++ v))) ∧
    validateProtocolVersion st (some pv) = none := by
  have hpvne : pv ≠ "" := supported_ne_empty pv hsup
  refine ⟨?_, ?_, ?_, ?_, ?_⟩
  · intro hd
    simp [validateProtocolVersion, jsStr, hpin, hd]
  · intro hd
    simp [validateProtocolVersion, jsStr, hpin, hd]
  · intro v hv hvs
    simp [validateProtocolVersion, jsStr, hv, hvs]
  · intro v hvs hvn
    have hv : v ≠ "" := supported_ne_empty v hvs
    simp [validateProtocolVersion, jsStr, hv, hvs, hpin, hvn]
  · simp [validateProtocolVersion, jsStr, hpvne, hsup, hpin]

def c5State : TransportState := { newTransport {} with protocolVersion := some "2025-06-18" }

/-- C5, witness: with `2025-06-18` pinned, the matching header passes and a
missing header is rejected with the required-header message. -/
theorem c5_version_header_validation_witness :
    validateProtocolVersion c5State (some "2025-06-18") = none ∧
    validateProtocolVersion c5State none
      = some (errResponse c5State 400 (-32000)
          "Bad Request: MCP-Protocol-Version header is required") :=
  ⟨(c5_version_header_validation c5State "2025-06-18" rfl (by decide)).2.2.2.2,
   (c5_version_header_validation c5State "2025-06-18" rfl (by decide)).2.1 (by decide)⟩

/-! ## C7: session validation -/

/-- C7: without a configured session-id generator every request passes
session validation; with one, an uninitialized transport rejects with 400, a
missing `mcp-session-id` header rejects with 400, a (nonempty) header value
different from the pinned id rejects with 404 by exact string comparison, and
the exact pinned id passes.  (An empty header value is treated by the source
like a missing header, via JS truthiness.) -/
theorem c7_session_validation (st : TransportState) :
    (st.sessionIdGenerator = none → ∀ h : Option String, validateSession st h = none) ∧
    (st.sessionIdGenerator ≠ none → st.initialized = false → ∀ h : Option String,
      validateSession st h
        = some (errResponse st 400 (-32000) "Bad Request: Server not initialized")) ∧
    (∀ sid : String, st.sessionIdGenerator ≠ none → st.initialized = true →
      st.sessionId = some sid →
      (validateSession st none
        = some (errResponse st 400 (-32000) "Bad Request: Mcp-Session-Id header is required")) ∧
      (∀ v : String, v ≠ "" → v ≠ sid →
        validateSession st (some v) = some (errResponse st 404 (-32001) "Session not found")) ∧
      (sid ≠ "" → validateSession st (some sid) = none)) := by
  refine ⟨?_, ?_, ?_⟩
  · intro hg h
    simp [validateSession, hg]
  · intro hg hinit h
    simp [validateSession, hg, hinit]
  · intro sid hg hinit hsid
    refine ⟨?_, ?_, ?_⟩
    · simp [validateSession, hg, hinit, jsStr]
    · intro v hv hvne
      simp [validateSession, hg, hinit, jsStr, hv, hsid, hvne]
    · intro hsne
      simp [validateSession, hg, hinit, jsStr, hsne, hsid]

def c7State : TransportState :=
  { newTransport { sessionIdGenerator := some "sess-1" } with
    initialized := true
    sessionId := some "sess-1" }

/-- C7, witness: the exact pinned id passes, a different id is 404, a missing
header is 400. -/
theorem c7_session_validation_witness :
    validateSession c7State (some "sess-1") = none ∧
    validateSession c7State (some "other")
      = some (errResponse c7State 404 (-32001) "Session not found") ∧
    validateSession c7State none
      = some (errResponse c7State 400 (-32000) "Bad Request: Mcp-Session-Id header is required") :=
  ⟨((c7_session_validation c7State).2.2 "sess-1" (by decide) rfl rfl).2.2 (by decide),
   ((c7_session_validation c7State).2.2 "sess-1" (by decide) rfl rfl).2.1 "other" (by decide)
     (by decide),
   ((c7_session_validation c7State).2.2 "sess-1" (by decide) rfl rfl).1⟩

/-! ## C4: initialize-request rejection -/

/-- Status of the immediate HTTP response of a POST outcome. -/
def postStatus (o : PostOutcome) : Option Nat :=
  match o.result with
  | PostResult.resp r => some r.status
  | PostResult.deferredJson _ => none

/-- A well-formed initialize POST requesting protocol version `pv`. -/
def initPostReq (pv : String) : HttpRequest :=
  { method := "POST"
    pathname := "/mcp"
    accept := some "application/json, text/event-stream"
    contentType := some "application/json"
    sessionIdHeader := none
    versionHeader := none
    body := RawBody.single (RawMsg.valid (JSONRPCMessage.request (RequestId.num 1) "initialize"
      (some { protocolVersion := some pv }))) }

/-- C4 (amended): a POST whose batch contains an initialize request is
rejected with 400, with no message forwarded and no state change, whenever
the transport is already initialized with an assigned session id
(`initialized && sessionId !== undefined`), and likewise whenever the batch
contains more than one message. -/
theorem c4_initialize_rejection (st : TransportState) (req : HttpRequest) (freshId : String)
    (msgs : List JSONRPCMessage)
    (hacc : optIncludes req.accept "application/json" = true
      ∧ optIncludes req.accept "text/event-stream" = true)
    (hct : optIncludes req.contentType "application/json" = true)
    (hparse : parseBody req.body = Except.ok msgs)
    (hinit : msgs.any isInitializeRequest = true)
    (hcase : (st.initialized = true ∧ st.sessionId ≠ none) ∨ 1 < msgs.length) :
    ∃ r : HttpResponse, handlePostRequest st req freshId = ⟨st, PostResult.resp r, []⟩
      ∧ r.status = 400 := by
  rcases hcase with hc | hc
  · refine ⟨errResponse st 400 (-32600) "Invalid Request: Server already initialized", ?_, rfl⟩
    simp [handlePostRequest, hacc.1, hacc.2, hct, hparse, hinit, hc]
  · by_cases hc2 : st.initialized = true ∧ st.sessionId ≠ none
    · refine ⟨errResponse st 400 (-32600) "Invalid Request: Server already initialized", ?_, rfl⟩
      simp [handlePostRequest, hacc.1, hacc.2, hct, hparse, hinit, hc2]
    · refine ⟨errResponse st 400 (-32600)
        "Invalid Request: Only one initialization request is allowed", ?_, rfl⟩
      simp [handlePostRequest, hacc.1, hacc.2, hct, hparse, hinit, hc2, hc]

def c4SessionlessState : TransportState :=
  (handlePostRequest (newTransport {}) (initPostReq "2025-06-18") "u1").state

/-- C4, counterexample: on a transport constructed without a session-id
generator, a first initialize POST leaves the transport initialized, yet a
second initialize POST is accepted (SSE response, status 200) and forwarded
to the handler — not rejected with 400 — because the source only rejects
when `initialized && sessionId !== undefined`. -/
theorem c4_counterexample :
    c4SessionlessState.initialized = true
      ∧ postStatus (handlePostRequest c4SessionlessState (initPostReq "2025-06-18") "u2")
          = some 200
      ∧ (handlePostRequest c4SessionlessState (initPostReq "2025-06-18") "u2").delivered
          = [JSONRPCMessage.request (RequestId.num 1) "initialize"
              (some { protocolVersion := some "2025-06-18" })] :=
  ⟨rfl, rfl, rfl⟩

def c4GenState : TransportState :=
  (handlePostRequest (newTransport { sessionIdGenerator := some "sess-1" })
    (initPostReq "2025-06-18") "u1").state

/-- C4, witness: with a session-id generator configured, a second initialize
POST is rejected with 400, nothing forwarded. -/
theorem c4_initialize_rejection_witness :
    postStatus (handlePostRequest c4GenState (initPostReq "2025-06-18") "u2") = some 400
      ∧ (handlePostRequest c4GenState (initPostReq "2025-06-18") "u2").delivered = [] := by
  obtain ⟨r, heq, hs⟩ := c4_initialize_rejection c4GenState (initPostReq "2025-06-18") "u2"
    [JSONRPCMessage.request (RequestId.num 1) "initialize"
      (some { protocolVersion := some "2025-06-18" })]
    ⟨by decide, by decide⟩ (by decide) rfl (by decide) (Or.inl ⟨by decide, by decide⟩)
  rw [heq]
  constructor
  · show some r.status = some 400
    rw [hs]
  · rfl

/-! ## C6: version negotiation at initialization -/

/-- C6: an accepted initialize request pins exactly the requested protocol
version when it is in the supported whitelist and the legacy default
`2025-03-26` otherwise, and always leaves the transport initialized with a
pinned (non-`none`) version. -/
theorem c6_version_negotiation (st : TransportState) (req : HttpRequest) (freshId : String)
    (rid : RequestId) (pv : String)
    (hacc : optIncludes req.accept "application/json" = true
      ∧ optIncludes req.accept "text/event-stream" = true)
    (hct : optIncludes req.contentType "application/json" = true)
    (hparse : parseBody req.body
      = Except.ok [JSONRPCMessage.request rid "initialize" (some { protocolVersion := some pv })])
    (hnotinit : ¬ (st.initialized = true ∧ st.sessionId ≠ none)) :
    (handlePostRequest st req freshId).state.protocolVersion
      = some (if pv ∈ SUPPORTED_PROTOCOL_VERSIONS then pv else DEFAULT_PROTOCOL_VERSION)
    ∧ (handlePostRequest st req freshId).state.initialized = true := by
  have hout : handlePostRequest st req freshId
      = dispatchMessages
          (initializeState st
            [JSONRPCMessage.request rid "initialize" (some { protocolVersion := some pv })])
          [JSONRPCMessage.request rid "initialize" (some { protocolVersion := some pv })]
          freshId := by
    simp [handlePostRequest, hacc.1, hacc.2, hct, hparse, hnotinit, isInitializeRequest]
  have hneg : (negotiateVersion st
      [JSONRPCMessage.request rid "initialize" (some { protocolVersion := some pv })]).protocolVersion
      = some (if pv ∈ SUPPORTED_PROTOCOL_VERSIONS then pv else DEFAULT_PROTOCOL_VERSION) := by
    have hfind : List.find? isInitializeRequest
        [JSONRPCMessage.request rid "initialize" (some { protocolVersion := some pv })]
        = some (JSONRPCMessage.request rid "initialize" (some { protocolVersion := some pv })) := by
      simp [isInitializeRequest]
    unfold negotiateVersion
    rw [hfind]
    by_cases hpv : pv = ""
    · subst hpv
      have hne : ("" : String) ∉ SUPPORTED_PROTOCOL_VERSIONS := by decide
      simp [jsStr, hne]
    · by_cases hm : pv ∈ SUPPORTED_PROTOCOL_VERSIONS <;> simp [jsStr, hpv, hm]
  rw [hout, dispatchMessages_state_eq]
  constructor
  · show (initializeState st
      [JSONRPCMessage.request rid "initialize" (some { protocolVersion := some pv })]).protocolVersion
      = some (if pv ∈ SUPPORTED_PROTOCOL_VERSIONS then pv else DEFAULT_PROTOCOL_VERSION)
    rw [initializeState_eq]
    exact hneg
  · show (initializeState st
      [JSONRPCMessage.request rid "initialize" (some { protocolVersion := some pv })]).initialized
      = true
    rw [initializeState_eq]

/-- C6, witness: initializing a fresh transport with the supported version
`2025-06-18` pins exactly that version. -/
theorem c6_version_negotiation_witness :
    (handlePostRequest (newTransport {}) (initPostReq "2025-06-18") "u1").state.protocolVersion
      = some "2025-06-18"
    ∧ (handlePostRequest (newTransport {}) (initPostReq "2025-06-18") "u1").state.initialized
      = true := by
  have h := c6_version_negotiation (newTransport {}) (initPostReq "2025-06-18") "u1"
    (RequestId.num 1) "2025-06-18" ⟨by decide, by decide⟩ (by decide) rfl (by decide)
  rw [if_pos (by decide : ("2025-06-18" : String) ∈ SUPPORTED_PROTOCOL_VERSIONS)] at h
  exact h

/-! ## C8: request-free batches -/

theorem init_is_request (m : JSONRPCMessage) (h : isInitializeRequest m = true) :
    isJSONRPCRequest m = true := by
  cases m with
  | request id mth ps => rfl
  | notification mth => simp [isInitializeRequest] at h
  | response id res => simp [isInitializeRequest] at h
  | error id c msg => simp [isInitializeRequest] at h

/-- C8: a POST passing content negotiation, session and version validation
whose batch contains no request-type message forwards every message to the
handler in array order, returns 202 with an empty body, and neither creates
a stream nor touches the ledger (the state is unchanged). -/
theorem c8_request_free_batch (st : TransportState) (req : HttpRequest) (freshId : String)
    (msgs : List JSONRPCMessage)
    (hacc : optIncludes req.accept "application/json" = true
      ∧ optIncludes req.accept "text/event-stream" = true)
    (hct : optIncludes req.contentType "application/json" = true)
    (hparse : parseBody req.body = Except.ok msgs)
    (hnoreq : msgs.any isJSONRPCRequest = false)
    (hsess : validateSession st req.sessionIdHeader = none)
    (hver : validateProtocolVersion st req.versionHeader = none) :
    handlePostRequest st req freshId
      = ⟨st,
         PostResult.resp
           { status := 202, headers := getHeaders st.corsOptions false, body := Body.empty },
         msgs⟩ := by
  have hnoinit : msgs.any isInitializeRequest = false := by
    rw [List.any_eq_false]
    intro m hm hinitm
    rw [List.any_eq_false] at hnoreq
    exact hnoreq m hm (init_is_request m hinitm)
  simp [handlePostRequest, hacc.1, hacc.2, hct, hparse, hnoinit, hsess, hver,
    dispatchMessages, hnoreq]

def c8Req : HttpRequest :=
  { method := "POST"
    pathname := "/mcp"
    accept := some "application/json, text/event-stream"
    contentType := some "application/json"
    sessionIdHeader := none
    versionHeader := none
    body := RawBody.single (RawMsg.valid (JSONRPCMessage.notification "n")) }

/-- C8, witness: a notification-only POST on a sessionless transport is
answered 202 with empty body, the notification is forwarded, and the state
is untouched. -/
theorem c8_request_free_batch_witness :
    handlePostRequest (newTransport {}) c8Req "u"
      = ⟨newTransport {},
         PostResult.resp
           { status := 202, headers := getHeaders (newTransport {}).corsOptions false,
             body := Body.empty },
         [JSONRPCMessage.notification "n"]⟩ :=
  c8_request_free_batch (newTransport {}) c8Req "u" [JSONRPCMessage.notification "n"]
    ⟨by decide, by decide⟩ (by decide) rfl (by decide) rfl rfl

/-! ## C10: route gating -/

/-- C10 (amended): whenever the configured route (default `/mcp`) is
nonempty, a request whose pathname differs from it is answered
`404 Not Found` without invoking `transport.handleRequest`, so the per-call
transport keeps its freshly constructed state.  (An empty configured route
disables the gate entirely, by JS truthiness of `if (route && ...)`.) -/
theorem c10_route_gating (opts : TransportOptions) (route : Option String) (req : HttpRequest)
    (freshId : String) (hr : route.getD "/mcp" ≠ "") (hp : req.pathname ≠ route.getD "/mcp") :
    mcpHandler opts route req freshId
      = { response := some notFoundResponse, invoked := false, state := newTransport opts }
    ∧ notFoundResponse.status = 404 := by
  constructor
  · unfold mcpHandler
    rw [if_pos ⟨hr, hp⟩]
  · rfl

def c10Req : HttpRequest :=
  { method := "OPTIONS"
    pathname := "/anywhere"
    accept := none
    contentType := none
    sessionIdHeader := none
    versionHeader := none
    body := RawBody.invalidJson }

/-- C10, counterexample: configuring `route: ""` makes the gate inoperative —
a request whose pathname `/anywhere` differs from the configured route `""`
is still passed to `transport.handleRequest` (here answered 200 by the
OPTIONS handler) instead of being rejected with 404. -/
theorem c10_counterexample :
    c10Req.pathname ≠ ""
      ∧ (mcpHandler {} (some "") c10Req "u").invoked = true
      ∧ (mcpHandler {} (some "") c10Req "u").response
          = some { status := 200, headers := getHeaders none true, body := Body.empty } := by
  refine ⟨by decide, rfl, rfl⟩

/-- C10, witness: with the default route, a request for `/other` is answered
404 with the transport untouched. -/
theorem c10_route_gating_witness :
    mcpHandler {} none { c10Req with pathname := "/other" } "u"
      = { response := some notFoundResponse, invoked := false, state := newTransport {} } :=
  (c10_route_gating {} none { c10Req with pathname := "/other" } "u" (by decide) (by decide)).1

/-! ## C9: error envelope and CORS uniformity -/

/-- The reduced CORS header pair carried by non-preflight responses. -/
def hasReducedCors (st : TransportState) (r : HttpResponse) : Prop :=
  ("Access-Control-Allow-Origin", corsOrigin st.corsOptions) ∈ r.headers ∧
  ("Access-Control-Expose-Headers", corsExpose st.corsOptions) ∈ r.headers

/-- The full CORS header set carried by OPTIONS preflight responses. -/
def hasFullCors (st : TransportState) (r : HttpResponse) : Prop :=
  ("Access-Control-Allow-Origin", corsOrigin st.corsOptions) ∈ r.headers ∧
  ("Access-Control-Allow-Headers", corsAllowHeaders st.corsOptions) ∈ r.headers ∧
  ("Access-Control-Allow-Methods", corsMethods st.corsOptions) ∈ r.headers ∧
  ("Access-Control-Max-Age", toString (corsMaxAge st.corsOptions)) ∈ r.headers

/-- A response that carries the reduced CORS headers and, when it is an
error, a JSON-RPC error-object body. -/
def goodResp (st : TransportState) (r : HttpResponse) : Prop :=
  hasReducedCors st r ∧ (400 ≤ r.status → ∃ c m, r.body = Body.errorObj c m)

theorem goodResp_errResponse (st : TransportState) (s : Nat) (c : Int) (msg : String) :
    goodResp st (errResponse st s c msg) := by
  refine ⟨⟨?_, ?_⟩, fun _ => ⟨c, msg, rfl⟩⟩ <;> simp [errResponse, getHeaders]

theorem validateSession_goodResp (st : TransportState) (h : Option String) (r : HttpResponse)
    (hv : validateSession st h = some r) : goodResp st r := by
  unfold validateSession at hv
  split at hv
  · simp at hv
  · split at hv
    · rw [Option.some.injEq] at hv
      exact hv ▸ goodResp_errResponse st 400 (-32000) "Bad Request: Server not initialized"
    · split at hv
      · rw [Option.some.injEq] at hv
        exact hv ▸ goodResp_errResponse st 400 (-32000)
          "Bad Request: Mcp-Session-Id header is required"
      · split at hv
        · simp at hv
        · rw [Option.some.injEq] at hv
          exact hv ▸ goodResp_errResponse st 404 (-32001) "Session not found"

theorem validateVersion_goodResp (st : TransportState) (h : Option String) (r : HttpResponse)
    (hv : validateProtocolVersion st h = some r) : goodResp st r := by
  unfold validateProtocolVersion at hv
  split at hv
  · split at hv
    · simp at hv
    · rw [Option.some.injEq] at hv
      exact hv ▸ goodResp_errResponse st 400 (-32000)
        "Bad Request: MCP-Protocol-Version header is required"
  · split at hv
    · split at hv
      · split at hv
        · simp at hv
        · rw [Option.some.injEq] at hv
          exact hv ▸ goodResp_errResponse st 400 (-32000) _
      · simp at hv
    · rw [Option.some.injEq] at hv
      exact hv ▸ goodResp_errResponse st 400 (-32000) _

theorem handleGet_goodResp (st : TransportState) (req : HttpRequest) :
    goodResp st (handleGetRequest st req).2 := by
  unfold handleGetRequest
  split
  · exact goodResp_errResponse st 406 (-32000) _
  · split
    · next r heq => exact validateSession_goodResp st _ r heq
    · split
      · next r heq => exact validateVersion_goodResp st _ r heq
      · split
        · exact goodResp_errResponse st 409 (-32000) _
        · refine ⟨⟨?_, ?_⟩, fun habs => absurd habs (by simp)⟩ <;>
            simp [sseHeaders, getHeaders]

theorem handleDelete_goodResp (st : TransportState) (req : HttpRequest) :
    goodResp st (handleDeleteRequest st req).2.1 := by
  unfold handleDeleteRequest
  split
  · next r heq => exact validateSession_goodResp st _ r heq
  · split
    · next r heq => exact validateVersion_goodResp st _ r heq
    · refine ⟨⟨?_, ?_⟩, fun habs => absurd habs (by simp)⟩ <;> simp [getHeaders]

theorem dispatch_goodResp (st st2 : TransportState) (msgs : List JSONRPCMessage)
    (fid : String) (r : HttpResponse) (hcors : st2.corsOptions = st.corsOptions)
    (h : (dispatchMessages st2 msgs fid).result = PostResult.resp r) : goodResp st r := by
  unfold dispatchMessages at h
  split at h
  · have hr : ({ status := 202,
                 headers := getHeaders st2.corsOptions false,
                 body := Body.empty } : HttpResponse) = r := by
      simpa using h
    refine hr ▸ ⟨⟨?_, ?_⟩, fun habs => absurd habs (by simp)⟩ <;> simp [getHeaders, hcors]
  · split at h
    · simp at h
    · have hr : ({ status := 200,
                   headers := sseHeaders st2,
                   body := Body.sseStream fid } : HttpResponse) = r := by
        simpa using h
      refine hr ▸ ⟨⟨?_, ?_⟩, fun habs => absurd habs (by simp)⟩ <;>
        simp [sseHeaders, getHeaders, hcors]

theorem initializeState_corsOptions (st : TransportState) (msgs : List JSONRPCMessage) :
    (initializeState st msgs).corsOptions = st.corsOptions := by
  rw [initializeState_eq]

theorem handlePost_goodResp (st : TransportState) (req : HttpRequest) (fid : String)
    (r : HttpResponse) (h : (handlePostRequest st req fid).result = PostResult.resp r) :
    goodResp st r := by
  unfold handlePostRequest at h
  split at h
  · split at h
    · split at h
      · have hr : errResponse st 400 (-32700) "Parse error: Invalid JSON" = r := by simpa using h
        exact hr ▸ goodResp_errResponse st 400 (-32700) _
      · have hr : errResponse st 400 (-32700) "Parse error: Invalid JSON-RPC message" = r := by
          simpa using h
        exact hr ▸ goodResp_errResponse st 400 (-32700) _
      · split at h
        · split at h
          · have hr : errResponse st 400 (-32600)
                "Invalid Request: Server already initialized" = r := by simpa using h
            exact hr ▸ goodResp_errResponse st 400 (-32600) _
          · split at h
            · have hr : errResponse st 400 (-32600)
                  "Invalid Request: Only one initialization request is allowed" = r := by
                simpa using h
              exact hr ▸ goodResp_errResponse st 400 (-32600) _
            · exact dispatch_goodResp st _ _ fid r (initializeState_corsOptions st _) h
        · split at h
          · next r2 heq =>
              have hr : r2 = r := by simpa using h
              exact hr ▸ validateSession_goodResp st _ r2 heq
          · split at h
            · next r2 heq =>
                have hr : r2 = r := by simpa using h
                exact hr ▸ validateVersion_goodResp st _ r2 heq
            · exact dispatch_goodResp st st _ fid r rfl h
    · have hr : errResponse st 415 (-32000)
          "Unsupported Media Type: Content-Type must be application/json" = r := by simpa using h
      exact hr ▸ goodResp_errResponse st 415 (-32000) _
  · have hr : errResponse st 406 (-32000)
        "Not Acceptable: Client must accept both application/json and text/event-stream" = r := by
      simpa using h
    exact hr ▸ goodResp_errResponse st 406 (-32000) _

/-- C9 (amended): methods other than the four supported ones are answered
405 with an `Allow` header listing them and a JSON-RPC error body, but —
unlike every other response — without CORS headers; OPTIONS responses carry
the full CORS set; every immediate response of GET, POST and DELETE carries
the reduced CORS set (origin plus exposed headers) with JSON-RPC error-object
bodies on every error; and every deferred JSON response later resolved by
`send` carries the reduced CORS set as well. -/
theorem c9_error_envelope_cors (st : TransportState) (req : HttpRequest) (freshId : String) :
    (req.method ≠ "GET" → req.method ≠ "POST" → req.method ≠ "DELETE" → req.method ≠ "OPTIONS" →
      handleRequest st req freshId
        = ⟨st, PostResult.resp methodNotAllowedResponse, [], []⟩) ∧
    (methodNotAllowedResponse.status = 405
      ∧ ("Allow", "GET, POST, DELETE, OPTIONS") ∈ methodNotAllowedResponse.headers
      ∧ (∃ c m, methodNotAllowedResponse.body = Body.errorObj c m)) ∧
    (req.method = "OPTIONS" →
      handleRequest st req freshId = ⟨st, PostResult.resp (handleOptionsRequest st), [], []⟩
        ∧ hasFullCors st (handleOptionsRequest st)) ∧
    ((req.method = "GET" ∨ req.method = "POST" ∨ req.method = "DELETE") →
      ∀ r : HttpResponse, (handleRequest st req freshId).result = PostResult.resp r →
        goodResp st r) ∧
    (∀ (m : JSONRPCMessage) (st2 : TransportState) (effs : List SendEffect) (sid : String)
        (r : HttpResponse), send st m = Except.ok (st2, effs) →
      SendEffect.resolveJson sid r ∈ effs → hasReducedCors st r) := by
  refine ⟨?_, ⟨rfl, by simp [methodNotAllowedResponse], ⟨-32000, "Method not allowed.", rfl⟩⟩,
    ?_, ?_, ?_⟩
  · intro h1 h2 h3 h4
    unfold handleRequest
    rw [if_neg h4, if_neg h1, if_neg h2, if_neg h3]
  · intro h
    constructor
    · unfold handleRequest
      rw [if_pos h]
    · refine ⟨?_, ?_, ?_, ?_⟩ <;> simp [handleOptionsRequest, getHeaders]
  · intro hm r h
    rcases hm with hg | hp | hd
    · unfold handleRequest at h
      rw [if_neg (by rw [hg]; decide), if_pos hg] at h
      have hr : (handleGetRequest st req).2 = r := by simpa using h
      exact hr ▸ handleGet_goodResp st req
    · unfold handleRequest at h
      rw [if_neg (by rw [hp]; decide), if_neg (by rw [hp]; decide), if_pos hp] at h
      exact handlePost_goodResp st req freshId r (by simpa using h)
    · unfold handleRequest at h
      rw [if_neg (by rw [hd]; decide), if_neg (by rw [hd]; decide),
        if_neg (by rw [hd]; decide), if_pos hd] at h
      have hr : (handleDeleteRequest st req).2.1 = r := by simpa using h
      exact hr ▸ handleDelete_goodResp st req
  · intro m st2 effs sid r hsend hmem
    rcases send_ok_effects st m st2 effs hsend _ hmem with ⟨s, mg, hx⟩ | ⟨s, r2, hx, hh, _⟩
      | ⟨s, hx, _⟩
    · exact absurd hx (by simp)
    · have hr : r2 = r := by
        have := hx
        simp only [SendEffect.resolveJson.injEq] at this
        exact this.2.symm
      subst hr
      constructor <;> rw [hh] <;> simp [jsonRespHeaders, getHeaders]
    · exact absurd hx (by simp)

def c9Req : HttpRequest :=
  { method := "PATCH"
    pathname := "/mcp"
    accept := none
    contentType := none
    sessionIdHeader := none
    versionHeader := none
    body := RawBody.invalidJson }

/-- C9, counterexample: the 405 response for an unsupported method (PATCH)
carries no `Access-Control-Allow-Origin` header at all, contradicting the
claim that every response the transport produces carries the configured CORS
headers. -/
theorem c9_counterexample :
    (handleRequest (newTransport {}) c9Req "u").result
        = PostResult.resp methodNotAllowedResponse
      ∧ methodNotAllowedResponse.status = 405
      ∧ methodNotAllowedResponse.headers.find?
          (fun p => decide (p.1 = "Access-Control-Allow-Origin")) = none := by
  refine ⟨rfl, rfl, by decide⟩

/-- C9, witness: a PATCH request is answered by the 405 method-not-allowed
response with the transport untouched. -/
theorem c9_error_envelope_cors_witness :
    handleRequest (newTransport {}) c9Req "u"
      = ⟨newTransport {}, PostResult.resp methodNotAllowedResponse, [], []⟩ :=
  (c9_error_envelope_cors (newTransport {}) c9Req "u").1 (by decide) (by decide) (by decide)
    (by decide)

/-! ## C2: JSON-response mode completeness and shape -/

theorem initializeState_fields (st : TransportState) (msgs : List JSONRPCMessage) :
    (initializeState st msgs).streamMapping = st.streamMapping
      ∧ (initializeState st msgs).requestToStreamMapping = st.requestToStreamMapping
      ∧ (initializeState st msgs).requestResponseMap = st.requestResponseMap
      ∧ (initializeState st msgs).enableJsonResponse = st.enableJsonResponse := by
  rw [initializeState_eq]
  exact ⟨rfl, rfl, rfl, rfl⟩

/-- Inversion of `handlePostRequest` in the deferred-JSON case: the stream id
is the fresh one, JSON mode is on, and the new state is the old one with the
fresh JSON-collector stream registered and every request id of the batch
entered into the ledger (session, version and initialization state aside). -/
theorem post_deferred_inv (st : TransportState) (req : HttpRequest) (freshId : String)
    (st1 : TransportState) (sid : String) (msgs : List JSONRPCMessage)
    (h : handlePostRequest st req freshId = ⟨st1, PostResult.deferredJson sid, msgs⟩) :
    sid = freshId
      ∧ st.enableJsonResponse = true
      ∧ st1.enableJsonResponse = true
      ∧ st1.streamMapping = mapSet st.streamMapping freshId StreamEntry.jsonCollector
      ∧ st1.requestToStreamMapping = registerIds st.requestToStreamMapping msgs freshId
      ∧ st1.requestResponseMap = st.requestResponseMap
      ∧ msgs.any isJSONRPCRequest = true := by
  have hdisp : ∀ st0 : TransportState,
      st0.streamMapping = st.streamMapping →
      st0.requestToStreamMapping = st.requestToStreamMapping →
      st0.requestResponseMap = st.requestResponseMap →
      st0.enableJsonResponse = st.enableJsonResponse →
      ∀ msgs0 : List JSONRPCMessage,
      dispatchMessages st0 msgs0 freshId = ⟨st1, PostResult.deferredJson sid, msgs⟩ →
      sid = freshId
        ∧ st.enableJsonResponse = true
        ∧ st1.enableJsonResponse = true
        ∧ st1.streamMapping = mapSet st.streamMapping freshId StreamEntry.jsonCollector
        ∧ st1.requestToStreamMapping = registerIds st.requestToStreamMapping msgs freshId
        ∧ st1.requestResponseMap = st.requestResponseMap
        ∧ msgs.any isJSONRPCRequest = true := by
    intro st0 hsm hrtm hrrm hejr msgs0 hd
    unfold dispatchMessages at hd
    split at hd
    · simp at hd
    · next hreq =>
        split at hd
        · next hjson =>
            simp only [PostOutcome.mk.injEq, PostResult.deferredJson.injEq] at hd
            obtain ⟨hst, hsid, hmsgs⟩ := hd
            subst hmsgs
            refine ⟨hsid.symm, ?_, ?_, ?_, ?_, ?_, ?_⟩
            · rw [← hejr]; exact hjson
            · rw [← hst]; show st0.enableJsonResponse = true; exact hjson
            · rw [← hst]; show mapSet st0.streamMapping freshId StreamEntry.jsonCollector = _
              rw [hsm]
            · rw [← hst]; show registerIds st0.requestToStreamMapping msgs0 freshId = _
              rw [hrtm]
            · rw [← hst]; show st0.requestResponseMap = _
              rw [hrrm]
            · simpa using hreq
        · simp at hd
  unfold handlePostRequest at h
  split at h
  · split at h
    · split at h
      · simp at h
      · simp at h
      · split at h
        · split at h
          · simp at h
          · split at h
            · simp at h
            · exact hdisp _ (initializeState_fields st _).1 (initializeState_fields st _).2.1
                (initializeState_fields st _).2.2.1 (initializeState_fields st _).2.2.2 _ h
        · split at h
          · simp at h
          · split at h
            · simp at h
            · exact hdisp st rfl rfl rfl rfl _ h
    · simp at h
  · simp at h

theorem sendReply_incomplete (st : TransportState) (m : JSONRPCMessage) (i : RequestId)
    (sid : String) (entry : StreamEntry)
    (hgl : mapGet st.requestToStreamMapping i = some sid)
    (hgs : mapGet st.streamMapping sid = some entry)
    (hjson : st.enableJsonResponse = true)
    (hall : allResponsesReady st.requestToStreamMapping
      (mapSet st.requestResponseMap i m) sid = false) :
    sendReply st m i
      = Except.ok ({ st with requestResponseMap := mapSet st.requestResponseMap i m }, []) := by
  unfold sendReply
  rw [hgl]
  simp only [hgs, hall, sendWrites, hjson]
  simp

theorem sendReply_complete_json (st : TransportState) (m : JSONRPCMessage) (i : RequestId)
    (sid : String)
    (hgl : mapGet st.requestToStreamMapping i = some sid)
    (hgs : mapGet st.streamMapping sid = some StreamEntry.jsonCollector)
    (hjson : st.enableJsonResponse = true)
    (hall : allResponsesReady st.requestToStreamMapping
      (mapSet st.requestResponseMap i m) sid = true) :
    sendReply st m i
      = Except.ok
          ({ st with
              requestResponseMap :=
                deleteIds (mapSet st.requestResponseMap i m)
                  (relatedIdsOf st.requestToStreamMapping sid)
              requestToStreamMapping :=
                deleteIds st.requestToStreamMapping
                  (relatedIdsOf st.requestToStreamMapping sid) },
           [SendEffect.resolveJson sid
             { status := 200
               headers := jsonRespHeaders st
               body := jsonBody (collectResponses st.requestToStreamMapping
                 (mapSet st.requestResponseMap i m) sid m) }]) := by
  unfold sendReply
  rw [hgl]
  simp only [hgs, hall, sendWrites, hjson]
  simp

theorem send_eq_sendReply (st : TransportState) (m : JSONRPCMessage) (i : RequestId)
    (hfi : msgResponseId m = some i) : send st m = sendReply st m i := by
  cases m with
  | request id mth ps => simp [msgResponseId] at hfi
  | notification mth => simp [msgResponseId] at hfi
  | response rid res =>
      have hr : rid = i := by simpa [msgResponseId] using hfi
      subst hr
      rfl
  | error rid c msg =>
      have hr : rid = i := by simpa [msgResponseId] using hfi
      subst hr
      rfl

/-- Core collection lemma: starting from a JSON-mode state whose stream `sid`
is a JSON collector with pending ids `ids0` (in ledger order), delivering the
responses `f i` for the still-missing ids `remaining` in any order `σ`
produces exactly one effect — the resolved JSON response aggregating the
recorded replies in ledger order — and clears the ledger of those ids. -/
theorem sendAll_json_collect (sid : String) (ids0 : List RequestId)
    (f : RequestId → JSONRPCMessage)
    (hf : ∀ i ∈ ids0, msgResponseId (f i) = some i) :
    ∀ (σ remaining : List RequestId) (st : TransportState),
      st.enableJsonResponse = true →
      mapGet st.streamMapping sid = some StreamEntry.jsonCollector →
      relatedIdsOf st.requestToStreamMapping sid = ids0 →
      (∀ i ∈ ids0, mapGet st.requestToStreamMapping i = some sid) →
      σ.Perm remaining →
      remaining ≠ [] →
      (∀ i ∈ remaining, i ∈ ids0) →
      remaining.Nodup →
      (∀ i ∈ ids0,
        mapGet st.requestResponseMap i = if i ∈ remaining then none else some (f i)) →
      ∃ st2 : TransportState,
        sendAll st (σ.map f)
          = Except.ok (st2,
              [SendEffect.resolveJson sid
                { status := 200
                  headers := jsonRespHeaders st
                  body := jsonBody (ids0.map f) }])
          ∧ (∀ i ∈ ids0, mapGet st2.requestToStreamMapping i = none) := by
  intro σ
  induction σ with
  | nil =>
      intro remaining st _ _ _ _ hperm hne _ _ _
      exact absurd (List.Perm.eq_nil hperm.symm) hne
  | cons i σ' ih =>
      intro remaining st hjson hstream hrel hget hperm hne hsub hnd hresp
      have hi : i ∈ remaining := hperm.subset (List.mem_cons_self i σ')
      have hi0 : i ∈ ids0 := hsub i hi
      have hgl : mapGet st.requestToStreamMapping i = some sid := hget i hi0
      have hfi : msgResponseId (f i) = some i := hf i hi0
      have hsend_eq : send st (f i) = sendReply st (f i) i := send_eq_sendReply st (f i) i hfi
      by_cases hrem : remaining.erase i = []
      · -- final response: the stream completes and the JSON body is resolved
        have hrem1 : remaining = [i] := by
          cases remaining with
          | nil => simp at hi
          | cons a t =>
              have ha : a = i ∨ (a ≠ i ∧ i ∈ t) := by
                rcases List.mem_cons.1 hi with h1 | h1
                · exact Or.inl h1.symm
                · by_cases hai : a = i
                  · exact Or.inl hai
                  · exact Or.inr ⟨hai, h1⟩
              rcases ha with ha | ⟨ha, hit⟩
              · subst ha
                rw [List.erase_cons_head] at hrem
                rw [hrem]
              · rw [List.erase_cons_tail] at hrem
                · simp at hrem
                · simp [ha]
        have hσ' : σ' = [] := by
          have hlen := hperm.length_eq
          rw [hrem1] at hlen
          simpa using List.length_eq_zero.mp (by simpa using hlen)
        subst hσ'
        have hall : allResponsesReady st.requestToStreamMapping
            (mapSet st.requestResponseMap i (f i)) sid = true := by
          rw [allResponsesReady, hrel, List.all_eq_true]
          intro j hj
          by_cases hji : j = i
          · subst hji
            rw [mapGet_mapSet_self]
            rfl
          · rw [mapGet_mapSet_ne _ _ _ _ hji, hresp j hj,
              if_neg (by rw [hrem1]; simp [hji])]
            rfl
        have hcoll : collectResponses st.requestToStreamMapping
            (mapSet st.requestResponseMap i (f i)) sid (f i) = ids0.map f := by
          rw [collectResponses, hrel]
          apply List.map_congr_left
          intro j hj
          by_cases hji : j = i
          · subst hji
            rw [mapGet_mapSet_self]
            rfl
          · rw [mapGet_mapSet_ne _ _ _ _ hji, hresp j hj,
              if_neg (by rw [hrem1]; simp [hji])]
            rfl
        refine ⟨{ st with
            requestResponseMap := deleteIds (mapSet st.requestResponseMap i (f i))
              (relatedIdsOf st.requestToStreamMapping sid)
            requestToStreamMapping := deleteIds st.requestToStreamMapping
              (relatedIdsOf st.requestToStreamMapping sid) }, ?_, ?_⟩
        · rw [List.map_cons, List.map_nil]
          unfold sendAll
          rw [hsend_eq, sendReply_complete_json st (f i) i sid hgl hstream hjson hall]
          simp [sendAll, hcoll]
        · intro j hj
          show mapGet (deleteIds st.requestToStreamMapping
            (relatedIdsOf st.requestToStreamMapping sid)) j = none
          rw [hrel]
          exact mapGet_deleteIds_of_mem _ _ _ hj
      · -- intermediate response: recorded, no effect, stream stays open
        obtain ⟨j, hjmem⟩ := List.exists_mem_of_ne_nil _ hrem
        have hjprop : j ≠ i ∧ j ∈ remaining := (List.Nodup.mem_erase_iff hnd).1 hjmem
        have hall : allResponsesReady st.requestToStreamMapping
            (mapSet st.requestResponseMap i (f i)) sid = false := by
          rw [Bool.eq_false_iff]
          intro hcontra
          rw [allResponsesReady, hrel, List.all_eq_true] at hcontra
          have hj0 : j ∈ ids0 := hsub j hjprop.2
          have := hcontra j hj0
          rw [mapGet_mapSet_ne _ _ _ _ hjprop.1, hresp j hj0, if_pos hjprop.2] at this
          simp at this
        have hstep := sendReply_incomplete st (f i) i sid StreamEntry.jsonCollector
          hgl hstream hjson hall
        obtain ⟨st2, hs2, hled⟩ := ih (remaining.erase i)
          { st with requestResponseMap := mapSet st.requestResponseMap i (f i) }
          hjson hstream hrel hget
          ((List.cons_perm_iff_perm_erase.1 hperm).2) hrem
          (fun x hx => hsub x (List.mem_of_mem_erase hx))
          (List.Nodup.erase i hnd)
          (by
            intro x hx
            by_cases hxi : x = i
            · subst hxi
              show mapGet (mapSet st.requestResponseMap x (f x)) x = _
              rw [mapGet_mapSet_self,
                if_neg (fun hmem => ((List.Nodup.mem_erase_iff hnd).1 hmem).1 rfl)]
            · show mapGet (mapSet st.requestResponseMap i (f i)) x = _
              rw [mapGet_mapSet_ne _ _ _ _ hxi, hresp x hx]
              by_cases hxr : x ∈ remaining
              · rw [if_pos hxr, if_pos ((List.Nodup.mem_erase_iff hnd).2 ⟨hxi, hxr⟩)]
              · rw [if_neg hxr, if_neg (fun hmem => hxr (List.mem_of_mem_erase hmem))])
        refine ⟨st2, ?_, hled⟩
        rw [List.map_cons]
        unfold sendAll
        rw [hsend_eq, hstep]
        simp only [hs2]
        rfl

theorem requestIds_ne_nil (msgs : List JSONRPCMessage)
    (h : msgs.any isJSONRPCRequest = true) : requestIds msgs ≠ [] := by
  rw [List.any_eq_true] at h
  obtain ⟨m, hm, hreq⟩ := h
  cases m with
  | request rid mth ps =>
      have hmem : rid ∈ requestIds msgs := by
        rw [requestIds, List.mem_filterMap]
        exact ⟨_, hm, rfl⟩
      exact List.ne_nil_of_mem hmem
  | notification mth => simp [isJSONRPCRequest] at hreq
  | response rid res => simp [isJSONRPCRequest] at hreq
  | error rid c msg => simp [isJSONRPCRequest] at hreq

/-- C2: when a POST is answered in JSON mode with a deferred response (so its
batch carries `N >= 1` request-type messages, with distinct fresh ids `ids` in
array order), and the handler then sends one response or error `f i` for
every registered id — in any order `σ` — the deferred response resolves
exactly once: the only emitted effect is a single resolved JSON response,
whose body aggregates the `N` replies in the order the ids were registered in
the ledger, as a bare object when `N = 1` and as an array of exactly `N`
result/error objects when `N > 1`; afterwards the ledger holds none of the
ids. -/
theorem c2_json_response_mode (st : TransportState) (req : HttpRequest) (freshId : String)
    (st1 : TransportState) (msgs : List JSONRPCMessage) (ids : List RequestId)
    (f : RequestId → JSONRPCMessage) (σ : List RequestId)
    (hpost : handlePostRequest st req freshId = ⟨st1, PostResult.deferredJson freshId, msgs⟩)
    (hids : requestIds msgs = ids)
    (hnd : ids.Nodup)
    (hfreshStream : ∀ p ∈ st.requestToStreamMapping, p.2 ≠ freshId)
    (hfreshIds : ∀ i ∈ ids, mapGet st.requestToStreamMapping i = none
      ∧ mapGet st.requestResponseMap i = none)
    (hf : ∀ i ∈ ids, msgResponseId (f i) = some i)
    (hσ : σ.Perm ids) :
    ∃ st2 : TransportState,
      sendAll st1 (σ.map f)
        = Except.ok (st2,
            [SendEffect.resolveJson freshId
              { status := 200
                headers := jsonRespHeaders st1
                body := jsonBody (ids.map f) }])
      ∧ (∀ i ∈ ids, mapGet st2.requestToStreamMapping i = none)
      ∧ (∀ i : RequestId, ids = [i] → jsonBody (ids.map f) = Body.jsonSingle (f i))
      ∧ (1 < ids.length → jsonBody (ids.map f) = Body.jsonArray (ids.map f)) := by
  obtain ⟨-, henable, hejr1, hsm, hled, hrrm, hreq⟩ :=
    post_deferred_inv st req freshId st1 freshId msgs hpost
  have hne : ids ≠ [] := by
    rw [← hids]
    exact requestIds_ne_nil msgs hreq
  have hreg : registerIds st.requestToStreamMapping msgs freshId
      = st.requestToStreamMapping ++ ids.map (fun i => (i, freshId)) := by
    rw [registerIds_fresh st.requestToStreamMapping msgs freshId
      (by rw [hids]; exact hnd)
      (fun i hi => (hfreshIds i (by rw [hids] at hi; exact hi)).1), hids]
  have hrel : relatedIdsOf st1.requestToStreamMapping freshId = ids := by
    rw [hled, hreg, relatedIdsOf_append,
      relatedIdsOf_eq_nil st.requestToStreamMapping freshId hfreshStream,
      relatedIdsOf_map_pair, List.nil_append]
  have hget : ∀ i ∈ ids, mapGet st1.requestToStreamMapping i = some freshId := by
    intro i hi
    rw [hled, hreg, mapGet_append _ _ _ (hfreshIds i hi).1, mapGet_map_pair _ _ _ hi]
  have hstream1 : mapGet st1.streamMapping freshId = some StreamEntry.jsonCollector := by
    rw [hsm, mapGet_mapSet_self]
  have hresp : ∀ i ∈ ids, mapGet st1.requestResponseMap i
      = if i ∈ ids then none else some (f i) := by
    intro i hi
    rw [hrrm, if_pos hi]
    exact (hfreshIds i hi).2
  obtain ⟨st2, hs, hledclean⟩ := sendAll_json_collect freshId ids f hf σ ids st1
    hejr1 hstream1 hrel hget hσ hne (fun x hx => hx) hnd hresp
  refine ⟨st2, hs, hledclean, ?_, ?_⟩
  · intro i hi
    subst hi
    rfl
  · intro hlen
    rcases ids with _ | ⟨a, _ | ⟨b, t⟩⟩
    · exact absurd hlen (by simp)
    · exact absurd hlen (by simp)
    · rfl

/-- The effect list of a successful `sendAll` run. -/
def sendAllEffects (st : TransportState) (ms : List JSONRPCMessage) : Option (List SendEffect) :=
  match sendAll st ms with
  | Except.ok (_, effs) => some effs
  | Except.error _ => none

def c2BatchReq : HttpRequest :=
  { method := "POST"
    pathname := "/mcp"
    accept := some "application/json, text/event-stream"
    contentType := some "application/json"
    sessionIdHeader := none
    versionHeader := none
    body := RawBody.array
      [RawMsg.valid (JSONRPCMessage.request (RequestId.num 1) "a" none),
       RawMsg.valid (JSONRPCMessage.request (RequestId.num 2) "b" none)] }

def c2Start : TransportState := newTransport { enableJsonResponse := true }

def c2Mid : TransportState := (handlePostRequest c2Start c2BatchReq "uX").state

def c2f : RequestId → JSONRPCMessage :=
  fun i =>
    match i with
    | RequestId.num 1 => JSONRPCMessage.error (RequestId.num 1) (-1) "bad"
    | j => JSONRPCMessage.response j "r2"

/-- C2, witness: a two-request JSON-mode batch whose replies arrive out of
order resolves once, with an array of both replies in registration order. -/
theorem c2_json_response_mode_witness :
    sendAllEffects c2Mid ([RequestId.num 2, RequestId.num 1].map c2f)
      = some [SendEffect.resolveJson "uX"
          { status := 200
            headers := jsonRespHeaders c2Mid
            body := jsonBody ([RequestId.num 1, RequestId.num 2].map c2f) }] := by
  obtain ⟨st2, hs, -, -, -⟩ := c2_json_response_mode c2Start c2BatchReq "uX" c2Mid
    [JSONRPCMessage.request (RequestId.num 1) "a" none,
     JSONRPCMessage.request (RequestId.num 2) "b" none]
    [RequestId.num 1, RequestId.num 2] c2f [RequestId.num 2, RequestId.num 1]
    rfl rfl (by decide) (by decide) (by decide) (by decide) (by decide)
  unfold sendAllEffects
  rw [hs]

end McpWorker
